import Mathlib

/-!
Verification development for the qadx input-injection / screen-capture daemon.

Shallow embedding of the core components referenced by the claims:
 * the input-event writer (`qadx::utils` in backends/input/common.cpp),
 * the evdev and uinput input backends,
 * the HTTP route table and request dispatch (`endpoint_t`, `session_t`),
 * the request handlers of both source revisions (the plain HTTP revision in
   src/network_session.cpp and the websocket-profile revision),
 * the WebSocket JSON command loop (`websocket_server_impl_t`),
 * the KMS grab path (`kms_screen_t::grab_frame_buffer`).

Machine ints of the C++ are modelled as `Int` (no operation here can overflow
32 bits on the inputs considered); kernel `write(2)` calls are modelled by a
trace of written records, and inline sleeps by trace markers, so that the
exact on-descriptor record sequences are visible to theorems.
-/

namespace Qadx

/-! ### Linux input-event constants (linux/input-event-codes.h values) -/

def EV_SYN : Nat := 0
def EV_KEY : Nat := 1
def EV_REL : Nat := 2
def EV_ABS : Nat := 3
def SYN_REPORT : Nat := 0
def BTN_TOUCH : Nat := 330
def ABS_X : Nat := 0
def ABS_Y : Nat := 1
def ABS_MT_TOUCH_MAJOR : Nat := 48
def ABS_MT_WIDTH_MAJOR : Nat := 50
def ABS_MT_POSITION_X : Nat := 53
def ABS_MT_POSITION_Y : Nat := 54
def ABS_MT_TRACKING_ID : Nat := 57
def ABS_MT_PRESSURE : Nat := 58
def REL_X : Nat := 0
def REL_Y : Nat := 1

/-- constants from backends/input/common.hpp: `#define BUTTON_DOWN 1`,
`#define BUTTON_UP 0`. -/
def BUTTON_DOWN : Int := 1

/-- see `BUTTON_DOWN`. -/
def BUTTON_UP : Int := 0

/-- one `input_event` record as written by the writer functions; the
timestamp fields are always zeroed by the source, so they are omitted. -/
structure input_event where
  etype : Nat
  code : Nat
  value : Int
deriving DecidableEq, Repr

/-- observable effect of the writer layer: a record written to a file
descriptor, or an inline sleep (`std::this_thread::sleep_for`). -/
inductive trace_event
  | write (fd : Int) (ev : input_event)
  | sleep_seconds (s : Int)
  | sleep_millis (ms : Int)
deriving DecidableEq, Repr

/-! ### qadx::utils input-event writers (backends/input/common.cpp)

Each function is the success-path write trace of the same-named C++
function; a failing `write(2)` aborts the surrounding operation, and all
claims below concern successful operations. -/

/-- `send_syn_event`: one `{EV_SYN, SYN_REPORT, 0}` record. -/
def send_syn_event (fd : Int) : List trace_event :=
  [.write fd ⟨EV_SYN, SYN_REPORT, 0⟩]

/-- `send_button_event`: one `{EV_KEY, BTN_TOUCH, value}` record. -/
def send_button_event (value fd : Int) : List trace_event :=
  [.write fd ⟨EV_KEY, BTN_TOUCH, value⟩]

/-- `send_key_event`: press then release of `key`. -/
def send_key_event (key : Nat) (fd : Int) : List trace_event :=
  [.write fd ⟨EV_KEY, key, 1⟩, .write fd ⟨EV_KEY, key, 0⟩]

/-- `send_pressure_event`: one `{EV_ABS, ABS_MT_PRESSURE, value}` record. -/
def send_pressure_event (value fd : Int) : List trace_event :=
  [.write fd ⟨EV_ABS, ABS_MT_PRESSURE, value⟩]

/-- `send_major_event`: `ABS_MT_TOUCH_MAJOR` then `ABS_MT_WIDTH_MAJOR`,
both carrying `value`. -/
def send_major_event (value fd : Int) : List trace_event :=
  [.write fd ⟨EV_ABS, ABS_MT_TOUCH_MAJOR, value⟩,
   .write fd ⟨EV_ABS, ABS_MT_WIDTH_MAJOR, value⟩]

/-- `send_position_event_abs`: `ABS_X` then `ABS_Y`. -/
def send_position_event_abs (x y fd : Int) : List trace_event :=
  [.write fd ⟨EV_ABS, ABS_X, x⟩, .write fd ⟨EV_ABS, ABS_Y, y⟩]

/-- `send_position_event_mt`: `ABS_MT_POSITION_X` then `ABS_MT_POSITION_Y`. -/
def send_position_event_mt (x y fd : Int) : List trace_event :=
  [.write fd ⟨EV_ABS, ABS_MT_POSITION_X, x⟩,
   .write fd ⟨EV_ABS, ABS_MT_POSITION_Y, y⟩]

/-- `send_tracking_event`: one `{EV_ABS, ABS_MT_TRACKING_ID, value}` record. -/
def send_tracking_event (value fd : Int) : List trace_event :=
  [.write fd ⟨EV_ABS, ABS_MT_TRACKING_ID, value⟩]

/-- `send_swipe_header`: `send_major_event` then `send_pressure_event`. -/
def send_swipe_header (major_value pressure fd : Int) : List trace_event :=
  send_major_event major_value fd ++ send_pressure_event pressure fd

/-- `send_swipe_footer`: major 0, pressure 0, tracking −1, `BUTTON_UP`,
then a SYN. -/
def send_swipe_footer (fd : Int) : List trace_event :=
  send_major_event 0 fd ++ send_pressure_event 0 fd ++
  send_tracking_event (-1) fd ++ send_button_event BUTTON_UP fd ++
  send_syn_event fd

/-- `send_touch` (common.cpp lines 180-193): tracking 100, MT position,
`BUTTON_DOWN`, ABS position, SYN; a sleep of `duration` seconds when
`duration > 0`; then tracking −1, `BUTTON_UP`, SYN.  Note there is no
leading SYN record. -/
def send_touch (x y duration fd : Int) : List trace_event :=
  send_tracking_event 100 fd ++ send_position_event_mt x y fd ++
  send_button_event BUTTON_DOWN fd ++ send_position_event_abs x y fd ++
  send_syn_event fd ++
  (if 0 < duration then [.sleep_seconds duration] else []) ++
  send_tracking_event (-1) fd ++ send_button_event BUTTON_UP fd ++
  send_syn_event fd

/-- the two division step values of `send_swipe` (common.cpp lines 197-198):
`steps_y = (y - y2) / v * -1` and `steps_x = (x - x2) / v * -1`, with C++
truncating division (`Int.tdiv`). -/
def swipe_steps (x y x2 y2 v : Int) : Int × Int :=
  ((x - x2).tdiv v * (-1), (y - y2).tdiv v * (-1))

/-- operands `(dividend, divisor)` of the two integer divisions executed at
the start of `send_swipe`, in execution order (`steps_y` first). -/
def swipe_divisions (x y x2 y2 v : Int) : List (Int × Int) :=
  [(y - y2, v), (x - x2, v)]

/-- the `for (int i = 0; i < v; ++i)` body of `send_swipe`:
major (post-incremented), pressure, tracking 100, MT position, SYN, a
500 ms sleep, then advance the position by the step vector. -/
def swipe_loop (fd pressure steps_x steps_y : Int) :
    Nat → Int → Int → Int → List trace_event
  | 0, _, _, _ => []
  | Nat.succ n, major, x, y =>
    send_major_event major fd ++ send_pressure_event pressure fd ++
    send_tracking_event 100 fd ++ send_position_event_mt x y fd ++
    send_syn_event fd ++ [.sleep_millis 500] ++
    swipe_loop fd pressure steps_x steps_y n (major + 1) (x + steps_x)
      (y + steps_y)

/-- `send_swipe` (common.cpp lines 195-226): header block, `v` loop
iterations, a final block at `(x2, y2)`, then the footer. -/
def send_swipe (x y x2 y2 v fd : Int) : List trace_event :=
  let steps_x := (swipe_steps x y x2 y2 v).1
  let steps_y := (swipe_steps x y x2 y2 v).2
  let pressure : Int := 50
  send_swipe_header 2 pressure fd ++ send_position_event_mt x y fd ++
  send_tracking_event 100 fd ++ send_button_event BUTTON_DOWN fd ++
  send_syn_event fd ++
  swipe_loop fd pressure steps_x steps_y v.toNat 2 x y ++
  send_major_event (2 + (v.toNat : Int)) fd ++
  send_pressure_event pressure fd ++ send_position_event_mt x2 y2 fd ++
  send_syn_event fd ++ send_swipe_footer fd

/-! ### evdev backend (backends/input/evdev.hpp)

`create_file_descriptor` opens `/dev/input/event<N>` and returns a positive
descriptor; the value is a runtime artefact, so the backend operations take
it as the parameter `fd_opened`. -/

/-- `ev_dev_backend_t::touch` / `touch_impl`: the source calls
`send_touch(x, y, duration, event)`, passing the *event id* where
`send_touch` expects the file descriptor, so `fd_opened` (the descriptor
returned by `create_file_descriptor(event)`) is never written to. -/
def ev_dev_touch_impl (x y duration event fd_opened : Int) : List trace_event :=
  send_touch x y duration event

/-- `ev_dev_backend_t::swipe` / `swipe_impl`: forwards to `send_swipe` on
the opened descriptor, with no guard on `velocity`. -/
def ev_dev_swipe_impl (x1 y1 x2 y2 velocity event fd_opened : Int) :
    List trace_event :=
  send_swipe x1 y1 x2 y2 velocity fd_opened

/-! ### trace observations -/

/-- records written to descriptor `fd`, in order. -/
def writes_on (fd : Int) (t : List trace_event) : List input_event :=
  t.filterMap fun e =>
    match e with
    | .write fd' ev => if fd' = fd then some ev else none
    | _ => none

/-- number of `SYN_REPORT` records in a trace (any descriptor). -/
def syn_count (t : List trace_event) : Nat :=
  t.countP fun e =>
    match e with
    | .write _ ev => ev.etype == EV_SYN && ev.code == SYN_REPORT
    | _ => false

/-- values of the `ABS_MT_TOUCH_MAJOR` records of a trace, in order. -/
def touch_majors (t : List trace_event) : List Int :=
  t.filterMap fun e =>
    match e with
    | .write _ ev =>
      if ev.etype == EV_ABS && ev.code == ABS_MT_TOUCH_MAJOR then
        some ev.value
      else none
    | _ => none

/-- values of the `ABS_MT_POSITION_X` records of a trace, in order. -/
def mt_xs (t : List trace_event) : List Int :=
  t.filterMap fun e =>
    match e with
    | .write _ ev =>
      if ev.etype == EV_ABS && ev.code == ABS_MT_POSITION_X then
        some ev.value
      else none
    | _ => none

/-- values of the `ABS_MT_POSITION_Y` records of a trace, in order. -/
def mt_ys (t : List trace_event) : List Int :=
  t.filterMap fun e =>
    match e with
    | .write _ ev =>
      if ev.etype == EV_ABS && ev.code == ABS_MT_POSITION_Y then
        some ev.value
      else none
    | _ => none

/-- record sequence asserted by the spec's "Input ordering" property for a
successful `POST /touch` (stated from the spec's words, to be compared with
the trace of the source embedding). -/
def claimed_touch_records (x y : Int) : List input_event :=
  [⟨EV_SYN, SYN_REPORT, 0⟩,
   ⟨EV_ABS, ABS_MT_TRACKING_ID, 100⟩,
   ⟨EV_ABS, ABS_MT_POSITION_X, x⟩,
   ⟨EV_ABS, ABS_MT_POSITION_Y, y⟩,
   ⟨EV_KEY, BTN_TOUCH, 1⟩,
   ⟨EV_ABS, ABS_X, x⟩,
   ⟨EV_ABS, ABS_Y, y⟩,
   ⟨EV_SYN, SYN_REPORT, 0⟩,
   ⟨EV_ABS, ABS_MT_TRACKING_ID, -1⟩,
   ⟨EV_KEY, BTN_TOUCH, 0⟩,
   ⟨EV_SYN, SYN_REPORT, 0⟩]

/-- helper: the loop of `send_swipe` emits exactly one SYN per iteration. -/
theorem syn_count_swipe_loop (fd pressure sx sy : Int) :
    ∀ (n : Nat) (major x y : Int),
      syn_count (swipe_loop fd pressure sx sy n major x y) = n := by
  intro n
  induction n with
  | zero => intro major x y; rfl
  | succ n ih =>
    intro major x y
    have h := ih (major + 1) (x + sx) (y + sy)
    simp [syn_count, swipe_loop, List.countP_append, List.countP_cons,
      send_major_event, send_pressure_event, send_tracking_event,
      send_position_event_mt, send_syn_event, EV_SYN, EV_ABS, SYN_REPORT,
      ABS_MT_TOUCH_MAJOR, ABS_MT_WIDTH_MAJOR, ABS_MT_PRESSURE,
      ABS_MT_POSITION_X, ABS_MT_POSITION_Y, ABS_MT_TRACKING_ID] at h ⊢
    omega

/-- C1 (counterexample): the record sequence claimed for a successful touch
is not what the code writes.  At `x = 10, y = 20, duration = 1, event = 5`
with opened descriptor 7, the opened descriptor receives no records at all
(`touch_impl` passes the event id to `send_touch` in place of the
descriptor), and even the records that are written (on descriptor 5) do not
start with the claimed leading `SYN_REPORT`. -/
theorem c1_touch_claim_counterexample :
    writes_on 7 (ev_dev_touch_impl 10 20 1 5 7) = [] ∧
    writes_on 7 (ev_dev_touch_impl 10 20 1 5 7) ≠ claimed_touch_records 10 20 ∧
    writes_on 5 (ev_dev_touch_impl 10 20 1 5 7) ≠ claimed_touch_records 10 20 := by
  decide

/-- C1 (amended): a successful touch writes, on the descriptor numerically
equal to the resolved event id (because `touch`/`touch_impl` pass `event`
where `send_touch` expects the file descriptor), exactly
`ABS_MT_TRACKING_ID=100, ABS_MT_POSITION_X=x, ABS_MT_POSITION_Y=y,
BTN_TOUCH=1, ABS_X=x, ABS_Y=y, SYN_REPORT`, then after `duration` seconds
`ABS_MT_TRACKING_ID=-1, BTN_TOUCH=0, SYN_REPORT`, with no leading
`SYN_REPORT` and no other records interleaved. -/
theorem c1_touch_trace_amended (x y duration event fd_opened : Int)
    (h : 0 < duration) :
    ev_dev_touch_impl x y duration event fd_opened =
      [.write event ⟨EV_ABS, ABS_MT_TRACKING_ID, 100⟩,
       .write event ⟨EV_ABS, ABS_MT_POSITION_X, x⟩,
       .write event ⟨EV_ABS, ABS_MT_POSITION_Y, y⟩,
       .write event ⟨EV_KEY, BTN_TOUCH, 1⟩,
       .write event ⟨EV_ABS, ABS_X, x⟩,
       .write event ⟨EV_ABS, ABS_Y, y⟩,
       .write event ⟨EV_SYN, SYN_REPORT, 0⟩,
       .sleep_seconds duration,
       .write event ⟨EV_ABS, ABS_MT_TRACKING_ID, -1⟩,
       .write event ⟨EV_KEY, BTN_TOUCH, 0⟩,
       .write event ⟨EV_SYN, SYN_REPORT, 0⟩] := by
  simp [ev_dev_touch_impl, send_touch, send_tracking_event,
    send_position_event_mt, send_button_event, send_position_event_abs,
    send_syn_event, BUTTON_DOWN, BUTTON_UP, if_pos h]

/-- C1 (witness): the amended touch-trace theorem at the concrete input
`x = 10, y = 20, duration = 1, event = 5, opened descriptor 7`. -/
theorem c1_touch_trace_amended_witness :
    ev_dev_touch_impl 10 20 1 5 7 =
      [.write 5 ⟨EV_ABS, ABS_MT_TRACKING_ID, 100⟩,
       .write 5 ⟨EV_ABS, ABS_MT_POSITION_X, 10⟩,
       .write 5 ⟨EV_ABS, ABS_MT_POSITION_Y, 20⟩,
       .write 5 ⟨EV_KEY, BTN_TOUCH, 1⟩,
       .write 5 ⟨EV_ABS, ABS_X, 10⟩,
       .write 5 ⟨EV_ABS, ABS_Y, 20⟩,
       .write 5 ⟨EV_SYN, SYN_REPORT, 0⟩,
       .sleep_seconds 1,
       .write 5 ⟨EV_ABS, ABS_MT_TRACKING_ID, -1⟩,
       .write 5 ⟨EV_KEY, BTN_TOUCH, 0⟩,
       .write 5 ⟨EV_SYN, SYN_REPORT, 0⟩] :=
  c1_touch_trace_amended 10 20 1 5 7 (by decide)

/-- C2 (counterexample): the swipe `x=0, y=0, x2=100, y2=50, velocity=5`
writes 8 `SYN_REPORT` records, not the claimed `5 + 2 = 7`. -/
theorem c2_swipe_syn_counterexample :
    syn_count (send_swipe 0 0 100 50 5 3) = 8 ∧
    syn_count (send_swipe 0 0 100 50 5 3) ≠ 5 + 2 := by
  decide

/-- C2 (amended): a swipe with velocity `v ≥ 1` writes exactly `v + 3`
`SYN_REPORT`s (one in the header block, `v` in the loop, one in the final
block at `(x2, y2)`, one in the footer).  For the swipe
`{x:0, y:0, x2:100, y2:50, velocity:5}` that is 8 SYNs; the
`ABS_MT_TOUCH_MAJOR` values written are `2` (header), `2,3,4,5,6` (loop)
and `7` (final block) followed by `0` (footer), and the final reported MT
position is `(100, 50)`. -/
theorem c2_swipe_syn_count_amended :
    (∀ x y x2 y2 v fd : Int, 1 ≤ v →
      syn_count (send_swipe x y x2 y2 v fd) = v.toNat + 3) ∧
    syn_count (send_swipe 0 0 100 50 5 3) = 8 ∧
    touch_majors (send_swipe 0 0 100 50 5 3) = [2, 2, 3, 4, 5, 6, 7, 0] ∧
    mt_xs (send_swipe 0 0 100 50 5 3) = [0, 0, 20, 40, 60, 80, 100] ∧
    mt_ys (send_swipe 0 0 100 50 5 3) = [0, 0, 10, 20, 30, 40, 50] := by
  refine ⟨?_, by decide, by decide, by decide, by decide⟩
  intro x y x2 y2 v fd hv
  have hloop := syn_count_swipe_loop fd 50 (swipe_steps x y x2 y2 v).1
    (swipe_steps x y x2 y2 v).2 v.toNat 2 x y
  simp [syn_count, swipe_loop, List.countP_append, List.countP_cons,
    send_swipe, send_swipe_header, send_swipe_footer, send_major_event,
    send_pressure_event, send_tracking_event, send_position_event_mt,
    send_button_event, send_syn_event, EV_SYN, EV_ABS, EV_KEY, SYN_REPORT,
    ABS_MT_TOUCH_MAJOR, ABS_MT_WIDTH_MAJOR, ABS_MT_PRESSURE,
    ABS_MT_POSITION_X, ABS_MT_POSITION_Y, ABS_MT_TRACKING_ID,
    BTN_TOUCH] at hloop ⊢
  omega

/-- C2 (witness): the amended swipe-count theorem applied at the concrete
scenario-S3 input, velocity 5 on descriptor 3. -/
theorem c2_swipe_syn_count_amended_witness :
    syn_count (send_swipe 0 0 100 50 5 3) = (5 : Int).toNat + 3 :=
  c2_swipe_syn_count_amended.1 0 0 100 50 5 3 (by decide)

/-! ### uinput backend (backends/input/uinput.hpp)

The three virtual devices are created at construction; `devices_t` holds
their descriptors.  Field order follows the source struct. -/

/-- the `devices_t` struct of the uinput backend: descriptors of the three
virtual devices created at startup. -/
structure devices_t where
  mouse : Int
  touch : Int
  keyboard : Int
deriving DecidableEq, Repr

/-- `uinput_backend_t::get_uinput_file_descriptor`: event 0 selects the
mouse, 1 the keyboard, 2 the touchscreen; any other value throws
`std::runtime_error("event not found")`. -/
def get_uinput_file_descriptor (d : devices_t) (event : Int) :
    Except String Int :=
  if event = 0 then .ok d.mouse
  else if event = 1 then .ok d.keyboard
  else if event = 2 then .ok d.touch
  else .error "event not found"

/-- `uinput_backend_t::button_impl`: looks the descriptor up (propagating
the "event not found" exception), fails when it is negative, and otherwise
writes tracking, button and SYN records.  The source passes `event` — not
the selected `fd` — to `send_tracking_event`, `send_button_event` and
`send_syn_event`, so the write trace targets descriptor `event`.
`.ok none` models `return false`, `.ok (some t)` a successful call whose
writes are `t`. -/
def uinput_button_impl (d : devices_t) (value event : Int) :
    Except String (Option (List trace_event)) :=
  match get_uinput_file_descriptor d event with
  | .error e => .error e
  | .ok fd =>
    if fd < 0 then .ok none
    else
      .ok (some (send_tracking_event (if value = 0 then -1 else 100) event ++
        send_button_event value event ++ send_syn_event event))

/-- outcome of an HTTP request handler, as seen by the client. -/
inductive http_outcome
  | ok_response
  | bad_request (msg : String)
  | server_error_response (msg : String)
deriving DecidableEq, Repr

/-- `session_t::button_request_handler` acting on the uinput backend, after
field validation succeeded: a thrown exception is caught and surfaced as
`bad_request(e.what())` (HTTP 400); a `false` return becomes
`server_error("Error")` (HTTP 500); otherwise 200 `OK`. -/
def uinput_button_http (d : devices_t) (value event : Int) : http_outcome :=
  match uinput_button_impl d value event with
  | .error msg => .bad_request msg
  | .ok none => .server_error_response "Error"
  | .ok (some _) => .ok_response

/-- fds targeted by the writes of a trace, in order. -/
def write_fds (t : List trace_event) : List Int :=
  t.filterMap fun e =>
    match e with
    | .write fd _ => some fd
    | _ => none

/-- C7: with the uinput backend the descriptor lookup maps event id 0, 1, 2
to the mouse, keyboard and touchscreen descriptors and any other id fails
with "event not found", surfaced by the HTTP handler as a 400 bad request
(never a 500, never a success).  However the claim's "routed to the …
virtual device" fails for the button operation: with touchscreen
descriptor 9, `button_impl(value 1, event 2)` writes its three records to
descriptor 2 (the event id), not to descriptor 9, because `button_impl`
passes `event` to the writers in place of `fd`. -/
theorem c7_uinput_routing_bug :
    get_uinput_file_descriptor ⟨7, 9, 8⟩ 0 = .ok 7 ∧
    get_uinput_file_descriptor ⟨7, 9, 8⟩ 1 = .ok 8 ∧
    get_uinput_file_descriptor ⟨7, 9, 8⟩ 2 = .ok 9 ∧
    get_uinput_file_descriptor ⟨7, 9, 8⟩ 3 = .error "event not found" ∧
    uinput_button_impl ⟨7, 9, 8⟩ 1 2 =
      .ok (some [.write 2 ⟨EV_ABS, ABS_MT_TRACKING_ID, 100⟩,
                 .write 2 ⟨EV_KEY, BTN_TOUCH, 1⟩,
                 .write 2 ⟨EV_SYN, SYN_REPORT, 0⟩]) ∧
    (∀ t, uinput_button_impl ⟨7, 9, 8⟩ 1 2 = .ok (some t) →
      write_fds t = [2, 2, 2] ∧ writes_on 9 t = []) ∧
    uinput_button_http ⟨7, 9, 8⟩ 1 3 = .bad_request "event not found" ∧
    uinput_button_http ⟨7, 9, 8⟩ 1 (-5) = .bad_request "event not found" := by
  refine ⟨by rfl, by rfl, by rfl, by rfl, by rfl, ?_,
    by decide, by decide⟩
  intro t ht
  have : t = [.write 2 ⟨EV_ABS, ABS_MT_TRACKING_ID, 100⟩,
              .write 2 ⟨EV_KEY, BTN_TOUCH, 1⟩,
              .write 2 ⟨EV_SYN, SYN_REPORT, 0⟩] := by
    have h2 : uinput_button_impl ⟨7, 9, 8⟩ 1 2 =
        .ok (some [.write 2 ⟨EV_ABS, ABS_MT_TRACKING_ID, 100⟩,
                   .write 2 ⟨EV_KEY, BTN_TOUCH, 1⟩,
                   .write 2 ⟨EV_SYN, SYN_REPORT, 0⟩]) := by rfl
    rw [h2] at ht
    exact (Option.some.inj (Except.ok.inj ht)).symm
  subst this
  exact ⟨by decide, by decide⟩

/-- C7 (witness): the ∀-quantified conjunct of the routing theorem applied
to the concrete trace that `button_impl` produces at value 1, event 2. -/
theorem c7_uinput_routing_bug_witness :
    write_fds [trace_event.write 2 ⟨EV_ABS, ABS_MT_TRACKING_ID, 100⟩,
               trace_event.write 2 ⟨EV_KEY, BTN_TOUCH, 1⟩,
               trace_event.write 2 ⟨EV_SYN, SYN_REPORT, 0⟩] = [2, 2, 2] ∧
    writes_on 9 [trace_event.write 2 ⟨EV_ABS, ABS_MT_TRACKING_ID, 100⟩,
                 trace_event.write 2 ⟨EV_KEY, BTN_TOUCH, 1⟩,
                 trace_event.write 2 ⟨EV_SYN, SYN_REPORT, 0⟩] = [] :=
  c7_uinput_routing_bug.2.2.2.2.2.1 _ (by rfl)

/-! ### device mapping and event-id resolution (arguments.hpp, network_session) -/

/-- `input_device_type_e` from enumerations.hpp. -/
inductive input_device_type_e
  | dev_none
  | keyboard
  | mouse
  | touchscreen
  | trackpad
deriving DecidableEq, Repr

/-- `input_device_mapping_t` from arguments.hpp. -/
structure input_device_mapping_t where
  event_number : Int
  relevance : Int
  device_type : input_device_type_e
deriving DecidableEq, Repr

/-- `event_id_for` (websocket-profile network_session.cpp): the event
number of the first entry of the requested kind, or −1 when there is
none. -/
def event_id_for (device_list : List input_device_mapping_t)
    (t : input_device_type_e) : Int :=
  match device_list.find? (fun d => d.device_type == t) with
  | none => -1
  | some d => d.event_number

/-- Modelled from the spec: the `FETCH_EVENT_NUMBER(device)` macro used by
the websocket-profile revision of the HTTP handlers is not under src (only
its uses are); the spec says a handler whose body lacks `event` uses the
kind lookup and "must fail with `kBadRequest(\"event is not found\")`"
when the device table is absent.  The definition mirrors the
`WEBSOCKET_FETCH_EVENT_NUMBER` macro that is in src
(websocket_server.hpp lines 89-97), whose error text matches the spec. -/
def fetch_event_number (devices : Option (List input_device_mapping_t))
    (event_field : Option Int) (t : input_device_type_e) :
    Except String Int :=
  match event_field with
  | some v => .ok v
  | none =>
    match devices with
    | none => .error "event is not found"
    | some device_list => .ok (event_id_for device_list t)

/-- parsed JSON body of a `POST /move` request: which of the looked-up
keys are present, and their integer values. -/
structure move_body where
  x : Option Int
  y : Option Int
  event : Option Int
deriving DecidableEq, Repr

/-- outcome of a `/move` dispatch, stopping at the backend call. -/
inductive move_outcome
  | bad_request (msg : String)
  | calls_backend (x y event_id : Int)
deriving DecidableEq, Repr

/-- `session_t::move_mouse_request_handler`, plain HTTP revision
(src/network_session.cpp lines 256-278): `any_element_is_invalid` is given
`x_iter`, `y_iter` **and** `event_iter`, so a missing `event` key is
rejected with 400 "x/y axis or event is not found". -/
def move_mouse_request_handler_plain (b : move_body) : move_outcome :=
  match b.x, b.y, b.event with
  | some x, some y, some e => .calls_backend x y e
  | _, _, _ => .bad_request "x/y axis or event is not found"

/-- `session_t::move_mouse_request_handler`, websocket-profile revision:
only `x_iter` and `y_iter` are validated; the event id then comes from
`FETCH_EVENT_NUMBER(input_device_type_e::mouse)`. -/
def move_mouse_request_handler_ws
    (devices : Option (List input_device_mapping_t)) (b : move_body) :
    move_outcome :=
  match b.x, b.y with
  | some x, some y =>
    match fetch_event_number devices b.event input_device_type_e.mouse with
    | .error msg => .bad_request msg
    | .ok event_id => .calls_backend x y event_id
  | _, _ => .bad_request "x/y axis or event is not found"

/-- C3 (counterexample): in the plain HTTP revision of
`move_mouse_request_handler` a body carrying integer `x` and `y` but no
`event` field **is** rejected for the missing event (400, "x/y axis or
event is not found") instead of being resolved through the device-mapping
table. -/
theorem c3_move_missing_event_counterexample :
    move_mouse_request_handler_plain ⟨some 1, some 2, none⟩ =
      .bad_request "x/y axis or event is not found" ∧
    move_mouse_request_handler_plain ⟨some 1, some 2, none⟩ ≠
      .calls_backend 1 2 (event_id_for [⟨3, 1, .mouse⟩]
        input_device_type_e.mouse) := by
  exact ⟨by rfl, by decide⟩

/-- C3 (amended): only the websocket-profile revision of the `/move`
handler treats `event` as optional: given integer `x` and `y` and no
`event` field it resolves the event id from the device-mapping table using
the mouse kind, and it fails with 400 "event is not found" exactly when
that table is absent; the plain HTTP revision requires the `event` field
and rejects its absence with 400 "x/y axis or event is not found". -/
theorem c3_move_missing_event_amended :
    (∀ x y : Int,
      move_mouse_request_handler_ws none ⟨some x, some y, none⟩ =
        .bad_request "event is not found") ∧
    (∀ (x y : Int) (ds : List input_device_mapping_t),
      move_mouse_request_handler_ws (some ds) ⟨some x, some y, none⟩ =
        .calls_backend x y (event_id_for ds input_device_type_e.mouse)) ∧
    (∀ x y : Int,
      move_mouse_request_handler_plain ⟨some x, some y, none⟩ =
        .bad_request "x/y axis or event is not found") := by
  refine ⟨fun x y => rfl, fun x y ds => rfl, fun x y => rfl⟩

/-! ### swipe handler and the division-by-zero path (C10) -/

/-- parsed JSON body of a `POST /swipe` request. -/
structure swipe_body where
  x : Option Int
  y : Option Int
  x2 : Option Int
  y2 : Option Int
  velocity : Option Int
  event : Option Int
deriving DecidableEq, Repr

/-- outcome of a `/swipe` dispatch, stopping at the backend call. -/
inductive swipe_outcome
  | bad_request (msg : String)
  | calls_backend (x y x2 y2 velocity event : Int)
deriving DecidableEq, Repr

/-- `session_t::swipe_request_handler` (plain HTTP revision): validation
only checks that the six keys are present (`any_element_is_invalid`); the
value of `velocity` is never inspected before the backend call. -/
def swipe_request_handler_plain (b : swipe_body) : swipe_outcome :=
  match b.x, b.y, b.x2, b.y2, b.event, b.velocity with
  | some x, some y, some x2, some y2, some e, some v =>
    .calls_backend x y x2 y2 v e
  | _, _, _, _, _, _ =>
    .bad_request "x, y, x2, y2, duration or velocity is not found"

/-- C10: the step-vector computation at the start of `send_swipe` divides
`(y − y2)` and `(x − x2)` by the velocity with no zero guard anywhere on
the `POST /swipe` path: a body whose six keys are present with
`velocity = 0` passes handler validation unchanged, the evdev backend
forwards it unchanged, and both executed divisions have divisor 0. -/
theorem c10_swipe_division_by_zero :
    ∀ x y x2 y2 e fd_opened : Int,
      swipe_request_handler_plain
        ⟨some x, some y, some x2, some y2, some 0, some e⟩ =
        .calls_backend x y x2 y2 0 e ∧
      ev_dev_swipe_impl x y x2 y2 0 e fd_opened =
        send_swipe x y x2 y2 0 fd_opened ∧
      (swipe_divisions x y x2 y2 0).map Prod.snd = [0, 0] := by
  exact fun x y x2 y2 e fd => ⟨rfl, rfl, rfl⟩

/-! ### request-body size limit (C9) -/

/-- `enum constant_e { RequestBodySize = 1'024 * 1'024 * 50 }` of the plain
HTTP revision (src/network_session.cpp line 41). -/
def RequestBodySize : Nat := 1024 * 1024 * 50

/-- `enum constant_e { RequestBodySize = 1'024 * 1'024 }` of the
websocket-profile revision of network_session.cpp. -/
def RequestBodySizeWebsocketProfile : Nat := 1024 * 1024

/-- error codes relevant to `session_t::on_data_read`. -/
inductive beast_read_ec
  | ok_ec
  | end_of_stream
  | body_limit
  | other_error
deriving DecidableEq, Repr

/-- session reaction to a finished body read. -/
inductive read_outcome
  | shutdown_conn
  | error_response (status : Nat) (closes_connection : Bool)
  | dispatch_request
deriving DecidableEq, Repr

/-- body-limit semantics of the Boost.Beast parser the session configures
via `body_limit(RequestBodySize)` (external library, modelled): reading a
message whose body is larger than the limit fails with the `body_limit`
error; a body within the limit is not a size error. -/
def body_parser_result (body_size limit : Nat) : beast_read_ec :=
  if limit < body_size then .body_limit else .ok_ec

/-- `session_t::on_data_read`: `end_of_stream` shuts the socket down;
`body_limit` (and any other error) answers with `server_error` — a 500 —
and `close_socket = true`; success dispatches the request. -/
def on_data_read : beast_read_ec → read_outcome
  | .end_of_stream => .shutdown_conn
  | .body_limit => .error_response 500 true
  | .other_error => .error_response 500 true
  | .ok_ec => .dispatch_request

/-- C9: the request-body limit is exactly 50 MiB on plain HTTP sessions and
1 MiB in the websocket-enabled profile; a request whose body exceeds the
limit is answered with a 500 response and the connection is closed, and a
request whose body is within the limit is never rejected for its size. -/
theorem c9_body_limit :
    RequestBodySize = 50 * 1024 * 1024 ∧
    RequestBodySizeWebsocketProfile = 1024 * 1024 ∧
    (∀ limit n : Nat, limit < n →
      on_data_read (body_parser_result n limit) = .error_response 500 true) ∧
    (∀ limit n : Nat, n ≤ limit →
      on_data_read (body_parser_result n limit) = .dispatch_request) := by
  refine ⟨by decide, by decide, ?_, ?_⟩
  · intro limit n h
    simp [body_parser_result, on_data_read, h]
  · intro limit n h
    simp [body_parser_result, on_data_read, Nat.not_lt.mpr h]

/-- C9 (witness): the limit theorem applied at a body of 50 MiB + 1 bytes
(rejected with 500 and a closed connection) and at one of exactly 50 MiB
(dispatched). -/
theorem c9_body_limit_witness :
    on_data_read (body_parser_result (50 * 1024 * 1024 + 1) RequestBodySize) =
      .error_response 500 true ∧
    on_data_read (body_parser_result (50 * 1024 * 1024) RequestBodySize) =
      .dispatch_request :=
  ⟨c9_body_limit.2.2.1 RequestBodySize (50 * 1024 * 1024 + 1) (by decide),
   c9_body_limit.2.2.2 RequestBodySize (50 * 1024 * 1024) (by decide)⟩

/-! ### KMS grab path (src/backends/screen/kms.cpp) -/

/-- the fields of a `drmModeFB` that `grab_frame_buffer` reads. -/
structure drm_fb_t where
  width : Int
  height : Int
  pitch : Int
  bpp : Int
deriving DecidableEq, Repr

/-- argument tuple of a `write_png` call
(`write_png(ptr, width, height, pitch, bpp, rgb, out)`). -/
structure encoder_call where
  width : Int
  height : Int
  pitch : Int
  bpp : Int
  rgb : Int
deriving DecidableEq, Repr

/-- `kms_screen_t::grab_frame_buffer` (kms.cpp lines 88-135): open the
card, get the CRTC, get the FB, map it; on success call
`write_png(ptr, fb->width, fb->height, fb->pitch, fb->bpp, 0, out)` — the
`rgb` argument is the literal `0`.  The runtime results of the open /
drmModeGetCrtc / drmModeGetFB / mmap calls are parameters;
`kms_format_rgb` is the RGB-vs-BGR flag from the runtime configuration,
which the function never reads. -/
def grab_frame_buffer (open_ok : Bool) (crtc_found : Bool)
    (fb : Option drm_fb_t) (mmap_ok : Bool) (kms_format_rgb : Int) :
    Option encoder_call :=
  if !open_ok then none
  else if !crtc_found then none
  else
    match fb with
    | none => none
    | some f =>
      if !mmap_ok then none
      else some ⟨f.width, f.height, f.pitch, f.bpp, 0⟩

/-- C5: the RGB-vs-BGR flag of the runtime configuration never reaches the
PNG encoder: `grab_frame_buffer` passes the literal `0` as the `rgb`
argument of `write_png` for every flag value, so flipping the flag does not
change the encoder call.  In particular the S5-style grab of a 2×1,
pitch-8, bpp-32 framebuffer yields the same call
`(2, 1, 8, 32, rgb = 0)` for flag 0 and flag 1. -/
theorem c5_rgb_flag_ignored :
    (∀ (o c m : Bool) (fb : Option drm_fb_t) (flag flag' : Int),
      grab_frame_buffer o c fb m flag = grab_frame_buffer o c fb m flag') ∧
    (∀ (o c m : Bool) (fb : Option drm_fb_t) (flag : Int),
      (grab_frame_buffer o c fb m flag).map encoder_call.rgb =
        (grab_frame_buffer o c fb m flag).map (fun _ => (0 : Int))) ∧
    grab_frame_buffer true true (some ⟨2, 1, 8, 32⟩) true 1 =
      some ⟨2, 1, 8, 32, 0⟩ ∧
    grab_frame_buffer true true (some ⟨2, 1, 8, 32⟩) true 0 =
      some ⟨2, 1, 8, 32, 0⟩ := by
  refine ⟨fun o c m fb flag flag' => rfl, ?_, by rfl, by rfl⟩
  intro o c m fb flag
  cases o <;> cases c <;> cases m <;> cases fb <;> rfl

/-! ### endpoint table and request routing (endpoint.hpp / endpoint.cpp,
session_t::handle_requests of both revisions) -/

/-- HTTP verbs used by the endpoint table. -/
inductive http_verb
  | get
  | post
  | options
  | head
deriving DecidableEq, Repr

/-- identity of a registered request handler. -/
inductive handler_id
  | move_h
  | button_h
  | touch_h
  | swipe_h
  | key_h
  | text_h
  | screen_h
  | screenshot_h
deriving DecidableEq, Repr

/-- `rule_t`: the verbs and callback of one exact route. -/
structure rule_t where
  verbs : List http_verb
  handler : handler_id
deriving DecidableEq, Repr

/-- one registered special route: placeholder names, suffix and rule
(`endpoint_t::special_placeholders_t`); the table key is the prefix. -/
structure special_rule_t where
  placeholder_names : List String
  suffix : String
  verbs : List http_verb
  handler : handler_id
deriving DecidableEq, Repr

/-- a successful special-route match: the rule plus the
`placeholder name → path token` bindings. -/
structure special_match_t where
  rule : special_rule_t
  bindings : List (String × String)
deriving DecidableEq, Repr

/-- the two route tables of `endpoint_t`, keyed by path and by special
prefix respectively. -/
structure endpoint_t where
  endpoints : List (String × rule_t)
  special_endpoints : List (String × special_rule_t)
deriving DecidableEq, Repr

/-- removes every trailing `'/'`
(the `while (s.back() == '/') s.pop_back();` idiom). -/
def drop_trailing_slashes (s : String) : String :=
  String.mk ((s.toList.reverse.dropWhile (· == '/')).reverse)

/-- whitespace predicate of `std::isspace` (C locale). -/
def is_space_char (c : Char) : Bool :=
  c == ' ' || c == '\t' || c == '\n' || c == '\r' || c == '\x0b' || c == '\x0c'

/-- `utils::trim_copy`: strip leading and trailing whitespace. -/
def trim_copy (s : String) : String :=
  String.mk ((s.toList.dropWhile is_space_char).reverse.dropWhile
    is_space_char).reverse

/-- position of the first occurrence of `c` in `cs` at or after `start`
(`std::string::find_first_of`). -/
def find_char_from (cs : List Char) (c : Char) (start : Nat) : Option Nat :=
  match (cs.drop start).findIdx? (· == c) with
  | none => none
  | some i => some (start + i)

/-- hexadecimal digit value of a character. -/
def hex_val (c : Char) : Option Nat :=
  if '0' ≤ c ∧ c ≤ '9' then some (c.toNat - '0'.toNat)
  else if 'a' ≤ c ∧ c ≤ 'f' then some (c.toNat - 'a'.toNat + 10)
  else if 'A' ≤ c ∧ c ≤ 'F' then some (c.toNat - 'A'.toNat + 10)
  else none

/-- percent-decoding over the character list; a `%` that is not followed by
two hex digits is kept verbatim. -/
def percent_decode : List Char → List Char
  | [] => []
  | '%' :: h1 :: h2 :: rest =>
    match hex_val h1, hex_val h2 with
    | some a, some b => Char.ofNat (16 * a + b) :: percent_decode rest
    | _, _ => '%' :: h1 :: h2 :: percent_decode rest
  | c :: rest => c :: percent_decode rest

/-- split a character list at every occurrence of `sep`
(`boost::split`-like: the empty input yields one empty token). -/
def split_on_char (sep : Char) : List Char → List (List Char)
  | [] => [[]]
  | c :: rest =>
    let r := split_on_char sep rest
    if c = sep then [] :: r
    else
      match r with
      | [] => [[c]]
      | h :: t => (c :: h) :: t

/-- split a string at every occurrence of the character `sep`. -/
def str_split_on (sep : Char) (s : String) : List String :=
  (split_on_char sep s.toList).map String.mk

/-- list version of `starts_with`. -/
def list_starts_with : List Char → List Char → Bool
  | _, [] => true
  | [], _ :: _ => false
  | a :: as, b :: bs => a == b && list_starts_with as bs

/-- `boost::starts_with` on strings. -/
def str_starts_with (s pre : String) : Bool :=
  list_starts_with s.toList pre.toList

/-- `boost::ends_with` on strings. -/
def str_ends_with (s suffix : String) : Bool :=
  list_starts_with s.toList.reverse suffix.toList.reverse

/-- drop the first `n` characters of a string. -/
def str_drop (s : String) (n : Nat) : String :=
  String.mk (s.toList.drop n)

/-- drop the last `n` characters of a string. -/
def str_drop_right (s : String) (n : Nat) : String :=
  String.mk ((s.toList.reverse.drop n).reverse)

/-- character count of a string. -/
def str_len (s : String) : Nat :=
  s.toList.length

/-- Modelled from the spec: `utils::decode_url` is declared in backend.hpp
but its definition is not under src; the spec's matching algorithm step 1
says "URL-decode the target", modelled here as percent-decoding. -/
def decode_url (s : String) : String :=
  String.mk (percent_decode s.toList)

/-- `endpoint_t::add_endpoint`: the path must begin with `/`; trailing
slashes are stripped; `std::map::emplace` keeps an existing entry. -/
def add_endpoint (e : endpoint_t) (route : String) (verbs : List http_verb)
    (h : handler_id) : Except String endpoint_t :=
  if route = "" ∨ route.toList.head? ≠ some '/' then
    .error "A valid route starts with a /"
  else
    let key := drop_trailing_slashes route
    if e.endpoints.any (fun p => p.1 == key) then .ok e
    else .ok { e with endpoints := e.endpoints ++ [(key, ⟨verbs, h⟩)] }

/-- placeholder-collection loop of
`endpoint_t::construct_special_placeholder` (endpoint.cpp lines 54-77);
`fuel` only bounds the recursion and always suffices for `fuel >
cs.length`.  Returns the names and the index of the last `'\x7d'`. -/
def construct_special_loop (cs : List Char) (n : Nat) :
    Nat → List String → Nat → Except String (List String × Nat)
  | _, _, 0 => .error "recursion fuel exhausted"
  | index, acc, Nat.succ fuel =>
    match find_char_from cs '}' index with
    | none => .error "end of placeholder not found"
    | some endp =>
      let name := trim_copy
        (String.mk ((cs.drop (index + 1)).take (endp - index - 1)))
      if name = "" then .error "empty placeholder name is not allowed"
      else
        let acc := acc ++ [name]
        let from_pos := endp + 1
        if n ≤ from_pos then .ok (acc, endp)
        else
          match find_char_from cs '{' from_pos with
          | none => .ok (acc, endp)
          | some idx2 =>
            if cs.get? (idx2 - 1) ≠ some '/' then
              .error "special placeholders should be separated by a slash"
            else construct_special_loop cs n idx2 acc fuel

/-- `endpoint_t::construct_special_placeholder` (endpoint.cpp lines
43-89): locate the first `'\x7b'`, validate the prefix, collect the
placeholder names, and take whatever follows the last `'\x7d'` — with
trailing slashes stripped — as the suffix. -/
def construct_special_placeholder (route : String) :
    Except String (String × List String × String) :=
  let cs := route.toList
  match find_char_from cs '{' 0 with
  | none => .error "A special route must have a placeholder"
  | some 0 => .error "A special route must have a placeholder"
  | some index =>
    let pre := String.mk (cs.take index)
    if trim_copy pre = "" ∨ trim_copy pre = "/" then
      .error "A special placeholder must have a valid prefix"
    else
      match construct_special_loop cs cs.length index [] (cs.length + 1) with
      | .error e => .error e
      | .ok (names, endp) =>
        let tail_len := cs.length - endp - 1
        let suffix :=
          if 0 < tail_len then
            drop_trailing_slashes (String.mk (cs.drop (endp + 1)))
          else ""
        .ok (pre, names, suffix)

/-- `endpoint_t::add_special_endpoint`: leading-slash check, placeholder
construction, duplicate-prefix rejection. -/
def add_special_endpoint (e : endpoint_t) (route : String)
    (verbs : List http_verb) (h : handler_id) : Except String endpoint_t :=
  if route = "" ∨ route.toList.head? ≠ some '/' then
    .error "A valid route starts with a /"
  else
    match construct_special_placeholder route with
    | .error msg => .error msg
    | .ok (pre, names, suffix) =>
      if e.special_endpoints.any (fun p => p.1 == pre) then
        .error "the prefix already exists"
      else
        .ok { e with special_endpoints :=
          e.special_endpoints ++ [(pre, ⟨names, suffix, verbs, h⟩)] }

/-- `endpoint_t::get_rules`: exact lookup in the route map. -/
def get_rules (e : endpoint_t) (target : String) : Option rule_t :=
  (e.endpoints.find? (fun p => p.1 == target)).map (·.2)

/-- `endpoint_t::get_special_rules` (endpoint.cpp lines 91-123): strip
trailing slashes from the target, then scan the special table: the prefix
must start the target; any suffix must end the remaining part and is
removed; the middle must split on `'/'` into exactly as many tokens as
there are placeholders, which become the bindings. -/
def get_special_rules (e : endpoint_t) (this_target : String) :
    Option special_match_t :=
  let target := drop_trailing_slashes this_target
  e.special_endpoints.findSome? fun pr =>
    if str_starts_with target pr.1 then
      let rest := str_drop target (str_len pr.1)
      let rest' :=
        if pr.2.suffix ≠ "" then
          if str_ends_with rest pr.2.suffix then
            some (str_drop_right rest (str_len pr.2.suffix))
          else none
        else some rest
      match rest' with
      | none => none
      | some mid =>
        let parts := str_split_on '/' mid
        if parts.length = pr.2.placeholder_names.length then
          some ⟨pr.2, pr.2.placeholder_names.zip parts⟩
        else none
    else none

/-- `session_t::split_optional_queries`: split the query string on `&`,
each item on `=`; items without a value are skipped; `std::map::emplace`
keeps the first binding of a key. -/
def split_optional_queries (q : String) : List (String × String) :=
  if q = "" then []
  else
    (str_split_on '&' q).foldl
      (fun m item =>
        match str_split_on '=' item with
        | k :: v :: _ => if m.any (fun p => p.1 == k) then m else m ++ [(k, v)]
        | _ => m)
      []

/-- `url_query[key] = value`: insert or overwrite. -/
def assoc_set (m : List (String × String)) (k v : String) :
    List (String × String) :=
  if m.any (fun p => p.1 == k) then
    m.map (fun p => if p.1 == k then (k, v) else p)
  else m ++ [(k, v)]

/-- result of route resolution for one request. -/
inductive route_outcome
  | not_found
  | method_not_allowed
  | options_response (verbs : List http_verb)
  | dispatch (h : handler_id) (query : List (String × String))
deriving DecidableEq, Repr

/-- the part of `session_t::handle_requests` shared verbatim by both
revisions, applied to the already URL-decoded (and, in the
websocket-profile revision, slash-stripped) target: reject the empty
target, split on `?`, look the path up verbatim in the exact table, fall
back to the special table. -/
def handle_requests_core (e : endpoint_t) (method : http_verb)
    (request_target : String) : route_outcome :=
  if request_target = "" then .not_found
  else
    let parts := str_split_on '?' request_target
    let target := parts.headD ""
    match get_rules e target with
    | some rule =>
      if method = .options then .options_response rule.verbs
      else if rule.verbs.contains method then
        .dispatch rule.handler (split_optional_queries (parts.getD 1 ""))
      else .method_not_allowed
    | none =>
      match get_special_rules e target with
      | none => .not_found
      | some m =>
        if method = .options then .options_response m.rule.verbs
        else if m.rule.verbs.contains method then
          .dispatch m.rule.handler
            (m.bindings.foldl (fun q p => assoc_set q p.1 p.2)
              (split_optional_queries (parts.getD 1 "")))
        else .method_not_allowed

/-- `session_t::handle_requests`, plain HTTP revision
(src/network_session.cpp lines 82-130): URL-decode the target once, then
resolve.  Note this revision never strips trailing slashes before the
exact lookup. -/
def handle_requests_plain (e : endpoint_t) (method : http_verb)
    (raw_target : String) : route_outcome :=
  handle_requests_core e method (decode_url raw_target)

/-- `session_t::handle_requests`, websocket-profile revision: URL-decode
the target once, pop every trailing `'/'`
(`while (boost::ends_with(request_target, "/")) pop_back()`), then
resolve. -/
def handle_requests_ws (e : endpoint_t) (method : http_verb)
    (raw_target : String) : route_outcome :=
  handle_requests_core e method
    (drop_trailing_slashes (decode_url raw_target))

/-- the route registrations of `session_t::add_endpoint_interfaces`,
identical in both revisions. -/
def add_endpoint_interfaces : Except String endpoint_t := do
  let e : endpoint_t := ⟨[], []⟩
  let e ← add_endpoint e "/move" [.post] .move_h
  let e ← add_endpoint e "/button" [.post] .button_h
  let e ← add_endpoint e "/touch" [.post] .touch_h
  let e ← add_endpoint e "/swipe" [.post] .swipe_h
  let e ← add_endpoint e "/key" [.post] .key_h
  let e ← add_endpoint e "/text" [.post] .text_h
  let e ← add_endpoint e "/screen" [.get] .screen_h
  add_special_endpoint e "/screen/\x7bscreen_number\x7d" [.get] .screenshot_h

/-- the endpoint table of a session; registration succeeds (see
`add_endpoint_interfaces_ok`). -/
def session_endpoints : endpoint_t :=
  match add_endpoint_interfaces with
  | .ok e => e
  | .error _ => ⟨[], []⟩

/-- route registration succeeds and produces `session_endpoints`. -/
theorem add_endpoint_interfaces_ok :
    add_endpoint_interfaces = .ok session_endpoints := rfl

/-- the handler a resolution outcome dispatches to, if any. -/
def outcome_handler : route_outcome → Option handler_id
  | .dispatch h _ => some h
  | _ => none

/-- helper: a list without the separator is one token. -/
theorem split_on_char_no_sep (sep : Char) (l : List Char) (h : sep ∉ l) :
    split_on_char sep l = [l] := by
  induction l with
  | nil => rfl
  | cons c rest ih =>
    have hc : ¬(c = sep) := fun e => h (e ▸ List.mem_cons_self c rest)
    have hr : sep ∉ rest := fun m => h (List.mem_cons_of_mem _ m)
    simp only [split_on_char]
    rw [ih hr]
    simp [hc]

/-- helper: splitting at the first separator occurrence yields the
separator-free part as the first token. -/
theorem split_on_char_append_sep (sep : Char) (p q : List Char)
    (h : sep ∉ p) :
    split_on_char sep (p ++ sep :: q) = p :: split_on_char sep q := by
  induction p with
  | nil =>
    simp only [List.nil_append, split_on_char]
    simp
  | cons c rest ih =>
    have hc : ¬(c = sep) := fun e => h (e ▸ List.mem_cons_self c rest)
    have hr : sep ∉ rest := fun m => h (List.mem_cons_of_mem _ m)
    simp only [List.cons_append, split_on_char, List.append_eq]
    rw [ih hr]
    simp [hc]

/-- helper: one step of `percent_decode` at a character other than `'%'`
copies that character. -/
theorem percent_decode_cons_ne (c : Char) (hc : ¬(c = '%'))
    (rest : List Char) :
    percent_decode (c :: rest) = c :: percent_decode rest := by
  rw [percent_decode.eq_def]
  split
  · next heq => exact List.noConfusion heq
  · next h1 h2 r heq =>
    obtain ⟨h₁, h₂⟩ := List.cons.inj heq
    exact absurd h₁ hc
  · next c' rest' heq =>
    obtain ⟨h₁, h₂⟩ := List.cons.inj heq
    subst h₁
    subst h₂
    rfl

/-- helper: percent-decoding is the identity on escape-free character
lists. -/
theorem percent_decode_no_escape (cs : List Char) (h : '%' ∉ cs) :
    percent_decode cs = cs := by
  induction cs with
  | nil => rfl
  | cons c rest ih =>
    have hc : ¬(c = '%') := fun e => h (e ▸ List.mem_cons_self c rest)
    have hr : '%' ∉ rest := fun m => h (List.mem_cons_of_mem _ m)
    rw [percent_decode_cons_ne c hc rest, ih hr]

/-- helper: `decode_url` is the identity on escape-free targets. -/
theorem decode_url_no_escape (s : String) (h : '%' ∉ s.toList) :
    decode_url s = s := by
  cases s with
  | mk data => exact congrArg String.mk (percent_decode_no_escape data h)

/-- helper: a trailing slash disappears under slash-stripping. -/
theorem drop_trailing_slashes_append_slash (s : String) :
    drop_trailing_slashes (s ++ "/") = drop_trailing_slashes s := by
  cases s with
  | mk data =>
    have h1 : (String.mk data ++ "/") = String.mk (data ++ ['/']) := rfl
    rw [h1]
    refine congrArg String.mk ?_
    simp

/-- helper: slash-stripping stops at a character that is not a slash, so
only the query part of `p ++ "?" ++ q` is stripped. -/
theorem drop_trailing_slashes_append_qmark (pd qd : List Char) :
    drop_trailing_slashes (String.mk (pd ++ '?' :: qd)) =
      String.mk (pd ++ '?' ::
        ((qd.reverse.dropWhile (· == '/')).reverse)) := by
  refine congrArg String.mk ?_
  show ((pd ++ '?' :: qd).reverse.dropWhile (· == '/')).reverse = _
  have h1 : (pd ++ '?' :: qd).reverse = (qd.reverse ++ ['?']) ++ pd.reverse := by
    simp
  rw [h1, List.dropWhile_append, List.dropWhile_append]
  cases hq : qd.reverse.dropWhile (· == '/') with
  | nil => simp [hq]
  | cons a t => simp [hq]

/-- helper: resolution of `p ++ "?" ++ q` dispatches the same handler as
resolution of `p`, for any `'?'`-free nonempty decoded path `p` and any
query `q`: the shared resolution core consults the query part only to
build the query map. -/
theorem handler_query_invariant (e : endpoint_t) (m : http_verb)
    (pd qd : List Char) (hp : pd ≠ []) (hq : '?' ∉ pd) :
    outcome_handler
        (handle_requests_core e m (String.mk (pd ++ '?' :: qd))) =
      outcome_handler (handle_requests_core e m (String.mk pd)) := by
  have hne1 : ¬(String.mk (pd ++ '?' :: qd) = "") := by
    intro he
    have h' : pd ++ '?' :: qd = ([] : List Char) := congrArg String.data he
    simp at h'
  have hne2 : ¬(String.mk pd = "") := by
    intro he
    have h' : pd = ([] : List Char) := congrArg String.data he
    exact hp h'
  have hs1 : str_split_on '?' (String.mk (pd ++ '?' :: qd)) =
      String.mk pd :: (split_on_char '?' qd).map String.mk := by
    show (split_on_char '?' (pd ++ '?' :: qd)).map String.mk = _
    rw [split_on_char_append_sep '?' pd qd hq]
    rfl
  have hs2 : str_split_on '?' (String.mk pd) = [String.mk pd] := by
    show (split_on_char '?' pd).map String.mk = _
    rw [split_on_char_no_sep '?' pd hq]
    rfl
  simp only [handle_requests_core]
  rw [if_neg hne1, if_neg hne2, hs1, hs2]
  simp only [List.headD_cons]
  cases hru : get_rules e (String.mk pd) with
  | some rule =>
    by_cases hm : m = http_verb.options
    · simp [hm, outcome_handler]
    · by_cases hc : m ∈ rule.verbs <;> simp [hm, hc, outcome_handler]
  | none =>
    cases hsp : get_special_rules e (String.mk pd) with
    | none => simp [outcome_handler]
    | some sm =>
      by_cases hm : m = http_verb.options
      · simp [hm, outcome_handler]
      · by_cases hc : m ∈ sm.rule.verbs <;> simp [hm, hc, outcome_handler]

/-- C4 (counterexample): in the plain HTTP revision route resolution is
not invariant under a trailing slash: `(POST, /touch/)` resolves to
`404 Not Found`, not to the touch handler, because that revision strips
trailing slashes on insertion but not on lookup. -/
theorem c4_trailing_slash_counterexample :
    handle_requests_plain session_endpoints .post "/touch/" = .not_found ∧
    handle_requests_plain session_endpoints .post "/touch/" ≠
      .dispatch .touch_h [] := by
  exact ⟨by rfl, by decide⟩

/-- C4 (amended): in both revisions route resolution is invariant under
URL-encoding of the target (any raw target resolves exactly like its
decoded form, whenever that form is itself escape-free) and under an
appended query string (for every `'?'`-free, escape-free, nonempty decoded
path the dispatched handler is unchanged by `++ "?" ++ q`; in the
websocket-profile revision the path must additionally carry no trailing
slash, which its lookup would strip); invariance under a trailing `'/'`
holds only in the websocket-profile revision, which strips trailing
slashes on lookup — `(POST, /touch?x=1)` dispatches to the touch handler
in both revisions and `(POST, /touch/)` does so in the websocket-profile
revision, while the plain revision answers 404 for `(POST, /touch/)`. -/
theorem c4_route_resolution_amended :
    (∀ (m : http_verb) (s t : String),
      decode_url s = t → decode_url t = t →
      handle_requests_plain session_endpoints m s =
        handle_requests_plain session_endpoints m t ∧
      handle_requests_ws session_endpoints m s =
        handle_requests_ws session_endpoints m t) ∧
    (∀ (m : http_verb) (pd qd : List Char),
      pd ≠ [] → '?' ∉ pd → '%' ∉ pd → '%' ∉ qd →
      outcome_handler (handle_requests_plain session_endpoints m
          (String.mk (pd ++ '?' :: qd))) =
        outcome_handler (handle_requests_plain session_endpoints m
          (String.mk pd))) ∧
    (∀ (m : http_verb) (pd qd : List Char),
      pd ≠ [] → '?' ∉ pd → '%' ∉ pd → '%' ∉ qd →
      drop_trailing_slashes (String.mk pd) = String.mk pd →
      outcome_handler (handle_requests_ws session_endpoints m
          (String.mk (pd ++ '?' :: qd))) =
        outcome_handler (handle_requests_ws session_endpoints m
          (String.mk pd))) ∧
    (∀ (m : http_verb) (s : String), '%' ∉ s.toList →
      handle_requests_ws session_endpoints m (s ++ "/") =
        handle_requests_ws session_endpoints m s) ∧
    (handle_requests_plain session_endpoints .post "/touch" =
      .dispatch .touch_h [] ∧
    handle_requests_plain session_endpoints .post "/touch?x=1" =
      .dispatch .touch_h [("x", "1")] ∧
    handle_requests_plain session_endpoints .post "/%74ouch" =
      .dispatch .touch_h [] ∧
    handle_requests_ws session_endpoints .post "/touch?x=1" =
      .dispatch .touch_h [("x", "1")] ∧
    handle_requests_ws session_endpoints .post "/touch/" =
      .dispatch .touch_h [] ∧
    handle_requests_ws session_endpoints .post "/%74ouch/" =
      .dispatch .touch_h [] ∧
    handle_requests_plain session_endpoints .post "/touch/" = .not_found ∧
    handle_requests_plain session_endpoints .post "/%2574ouch" =
      .not_found ∧
    handle_requests_ws session_endpoints .post "/%2574ouch" =
      .not_found) := by
  refine ⟨?_, ?_, ?_, ?_,
    rfl, rfl, rfl, rfl, rfl, rfl, rfl, rfl, rfl⟩
  · intro m s t hs ht
    constructor
    · show handle_requests_core _ m (decode_url s) =
        handle_requests_core _ m (decode_url t)
      rw [hs, ht]
    · show handle_requests_core _ m
          (drop_trailing_slashes (decode_url s)) =
        handle_requests_core _ m (drop_trailing_slashes (decode_url t))
      rw [hs, ht]
  · intro m pd qd hp hq hpp hpq
    have hne : '%' ∉ pd ++ '?' :: qd := by
      intro hm
      rcases List.mem_append.mp hm with h | h
      · exact hpp h
      · rcases List.mem_cons.mp h with h | h
        · exact absurd h (by decide)
        · exact hpq h
    show outcome_handler (handle_requests_core _ m
        (decode_url (String.mk (pd ++ '?' :: qd)))) =
      outcome_handler (handle_requests_core _ m
        (decode_url (String.mk pd)))
    rw [decode_url_no_escape _ hne, decode_url_no_escape _ hpp]
    exact handler_query_invariant _ m pd qd hp hq
  · intro m pd qd hp hq hpp hpq hstrip
    have hne : '%' ∉ pd ++ '?' :: qd := by
      intro hm
      rcases List.mem_append.mp hm with h | h
      · exact hpp h
      · rcases List.mem_cons.mp h with h | h
        · exact absurd h (by decide)
        · exact hpq h
    show outcome_handler (handle_requests_core _ m
        (drop_trailing_slashes
          (decode_url (String.mk (pd ++ '?' :: qd))))) =
      outcome_handler (handle_requests_core _ m
        (drop_trailing_slashes (decode_url (String.mk pd))))
    rw [decode_url_no_escape _ hne, decode_url_no_escape _ hpp, hstrip,
      drop_trailing_slashes_append_qmark]
    exact handler_query_invariant _ m pd _ hp hq
  · intro m s h
    have hns : '%' ∉ (s ++ "/").toList := by
      cases s with
      | mk data =>
        intro hm
        rcases List.mem_append.mp hm with h' | h'
        · exact h h'
        · rcases List.mem_cons.mp h' with h' | h'
          · exact absurd h' (by decide)
          · exact absurd h' (List.not_mem_nil _)
    show handle_requests_core _ m
        (drop_trailing_slashes (decode_url (s ++ "/"))) =
      handle_requests_core _ m (drop_trailing_slashes (decode_url s))
    rw [decode_url_no_escape _ hns, decode_url_no_escape _ h,
      drop_trailing_slashes_append_slash]

/-- C4 (witness): the amended route-resolution theorem at the concrete
inputs `s = /%74ouch` decoding to `t = /touch`, decoded path `/touch` with
query `x=1` in both revisions, and trailing slash on `/touch` in the
websocket-profile revision. -/
theorem c4_route_resolution_amended_witness :
    (handle_requests_plain session_endpoints .post "/%74ouch" =
      handle_requests_plain session_endpoints .post "/touch") ∧
    (handle_requests_ws session_endpoints .post "/%74ouch" =
      handle_requests_ws session_endpoints .post "/touch") ∧
    (outcome_handler (handle_requests_plain session_endpoints .post
        (String.mk (['/', 't', 'o', 'u', 'c', 'h'] ++ '?' ::
          ['x', '=', '1']))) =
      outcome_handler (handle_requests_plain session_endpoints .post
        (String.mk ['/', 't', 'o', 'u', 'c', 'h']))) ∧
    (outcome_handler (handle_requests_ws session_endpoints .post
        (String.mk (['/', 't', 'o', 'u', 'c', 'h'] ++ '?' ::
          ['x', '=', '1']))) =
      outcome_handler (handle_requests_ws session_endpoints .post
        (String.mk ['/', 't', 'o', 'u', 'c', 'h']))) ∧
    (handle_requests_ws session_endpoints .post ("/touch" ++ "/") =
      handle_requests_ws session_endpoints .post "/touch") :=
  ⟨(c4_route_resolution_amended.1 .post "/%74ouch" "/touch" (by rfl)
      (by rfl)).1,
   (c4_route_resolution_amended.1 .post "/%74ouch" "/touch" (by rfl)
      (by rfl)).2,
   c4_route_resolution_amended.2.1 .post ['/', 't', 'o', 'u', 'c', 'h']
     ['x', '=', '1'] (by decide) (by decide) (by decide) (by decide),
   c4_route_resolution_amended.2.2.1 .post ['/', 't', 'o', 'u', 'c', 'h']
     ['x', '=', '1'] (by decide) (by decide) (by decide) (by decide)
     (by rfl),
   c4_route_resolution_amended.2.2.2.1 .post "/touch" (by decide)⟩

/-- C8: for the special route `/screen/\x7bscreen_number\x7d`,
`GET /screen/42` matches and binds `screen_number → "42"` in the query map
handed to the screenshot handler; `GET /screen/42/` produces the same
binding; and `GET /screen` does not match the special route but dispatches
to the exact `/screen` route (the screen-list handler). -/
theorem c8_screen_special_route :
    handle_requests_plain session_endpoints .get "/screen/42" =
      .dispatch .screenshot_h [("screen_number", "42")] ∧
    handle_requests_plain session_endpoints .get "/screen/42/" =
      .dispatch .screenshot_h [("screen_number", "42")] ∧
    handle_requests_plain session_endpoints .get "/screen" =
      .dispatch .screen_h [] ∧
    get_special_rules session_endpoints "/screen" = none :=
  ⟨rfl, rfl, rfl, rfl⟩

/-! ### WebSocket command loop (include/websocket_server.hpp) -/

/-- `message_type_e` from enumerations.hpp. -/
inductive message_type_e
  | swipe
  | screen_stream
  | screens
  | text
  | key
  | touch
  | button
  | unknown
deriving DecidableEq, Repr

/-- `utils::to_lower_copy`. -/
def to_lower_copy (s : String) : String :=
  String.mk (s.toList.map Char.toLower)

/-- `string_to_message` (websocket_server.hpp lines 109-126). -/
def string_to_message (s : String) : message_type_e :=
  if s = "swipe" then .swipe
  else if s = "stream" then .screen_stream
  else if s = "screens" then .screens
  else if s = "text" then .text
  else if s = "key" then .key
  else if s = "touch" then .touch
  else if s = "button" then .button
  else .unknown

/-- escaping applied by `nlohmann::json::dump` to a string value; the
inputs appearing here contain no control characters, so only `"` and `\`
need escaping. -/
def json_escape_char (c : Char) : List Char :=
  if c = '"' then ['\\', '"']
  else if c = '\\' then ['\\', '\\']
  else [c]

/-- see `json_escape_char`. -/
def json_escape (s : String) : String :=
  String.mk (s.toList.map json_escape_char).flatten

/-- comma-joined `"key":"value"` members of an object dump. -/
def json_dump_pairs : List (String × String) → String
  | [] => ""
  | [(k, v)] => "\"" ++ json_escape k ++ "\":\"" ++ json_escape v ++ "\""
  | (k, v) :: rest =>
    "\"" ++ json_escape k ++ "\":\"" ++ json_escape v ++ "\"," ++
    json_dump_pairs rest

/-- `nlohmann::json(object).dump()` for an object of string values; an
`nlohmann` object stores its keys in `std::map` order, so callers pass the
key/value list alphabetically sorted. -/
def json_dump_object (kvs : List (String × String)) : String :=
  "\x7b" ++ json_dump_pairs kvs ++ "\x7d"

/-- `websocket_server_impl_t::generate_error_message`: dump of
`\x7bstatus: "error", message: msg\x7d` (keys alphabetical in the map). -/
def generate_error_message (msg : String) : String :=
  json_dump_object [("message", msg), ("status", "error")]

/-- `websocket_server_impl_t::queue_success_message`: the queued text is
`fmt::format("\x7b\"status\": \"\x7b\x7d\"\x7d", message)` read as the
evident template — the argument spliced between `"status": "` and the
closing quote-brace.  (As written in the source the format string is not
even a valid fmt spec, since its literal braces are unescaped; under no
reading does this function emit its argument unwrapped.) -/
def queue_success_message_text (message : String) : String :=
  "\x7b\"status\": \"" ++ message ++ "\"\x7d"

/-- `websocket_server_impl_t::error_type_sent` (websocket_server.hpp lines
406-413): builds the object `\x7brequest: view, status: "error", message:
"unrecognized type in the message sent"\x7d` (alphabetically: message,
request, status) and hands its dump to `queue_success_message`. -/
def error_type_sent (view : String) : String :=
  queue_success_message_text
    (json_dump_object
      [("message", "unrecognized type in the message sent"),
       ("request", view), ("status", "error")])

/-- reaction of the WebSocket read loop to one inbound text frame. -/
inductive ws_step
  | queue_frame (s : String)
  | process_command (t : message_type_e)
  | closed_conn
deriving DecidableEq, Repr

/-- `websocket_server_impl_t::interpret_message`: `view` is the raw frame
text; `type_field` is the `type` member of the parsed JSON object (`none`
when absent or not a string, answered with "invalid type").  A recognized
type is dispatched to its `process_*` member; an unknown type queues the
`error_type_sent` frame.  No branch closes the connection. -/
def interpret_message (view : String) (type_field : Option String) : ws_step :=
  match type_field with
  | none => .queue_frame (generate_error_message "invalid type")
  | some t =>
    match string_to_message (to_lower_copy t) with
    | .unknown => .queue_frame (error_type_sent view)
    | .swipe => .process_command .swipe
    | .screen_stream => .process_command .screen_stream
    | .screens => .process_command .screens
    | .text => .process_command .text
    | .key => .process_command .key
    | .touch => .process_command .touch
    | .button => .process_command .button

/-- the offending S6 frame `\x7b"type":"nope"\x7d`. -/
def c6_offending_frame : String := "\x7b\"type\":\"nope\"\x7d"

/-- the frame the claim says the server sends next: the echo object with
no additional wrapping. -/
def c6_claimed_frame : String :=
  "\x7b\"request\":\"\x7b\\\"type\\\":\\\"nope\\\"\x7d\",\"status\":\"error\",\"message\":\"unrecognized type in the message sent\"\x7d"

/-- C6: on a text frame whose `type` is unrecognized the connection stays
open and one frame is queued — but the queued frame is the echo object
routed through `queue_success_message`, which wraps it in a further
`\x7b"status": "…"\x7d` envelope, so the frame actually produced is not
the claimed unwrapped object (and, the inner quotes being unescaped, is
not even valid JSON). -/
theorem c6_unknown_type_frame_wrapped :
    string_to_message "nope" = .unknown ∧
    interpret_message c6_offending_frame (some "nope") =
      .queue_frame (error_type_sent c6_offending_frame) ∧
    interpret_message c6_offending_frame (some "nope") ≠ .closed_conn ∧
    error_type_sent c6_offending_frame =
      "\x7b\"status\": \"\x7b\"message\":\"unrecognized type in the message sent\",\"request\":\"\x7b\\\"type\\\":\\\"nope\\\"\x7d\",\"status\":\"error\"\x7d\"\x7d" ∧
    error_type_sent c6_offending_frame ≠ c6_claimed_frame := by
  refine ⟨by rfl, by rfl, by decide, by rfl, by decide⟩

end Qadx
